import Mathlib

/-!
Shallow embedding of the WebGL painting application (src/main.js,
src/advanced_features.js).

Conventions of the embedding:
* JavaScript numbers are modelled as exact rationals (ℚ) where only field
  arithmetic occurs, and as real numbers (ℝ) where the source calls
  `Math.sqrt` / `Math.cos` / `Math.sin` / `Math.PI`.
* The global mutable state of main.js (`shapesList`, `lastMousePos`, …)
  becomes explicit state records; each event handler becomes a function from
  state (plus the values it reads from the DOM) to state.
* A call to `renderAllShapes()` is recorded in the state as the list of
  shapes that was handed to the renderer (`renderedFrame`), since the actual
  GPU draw calls are outside the model.
* `Math.random()` draws become explicit input parameters, universally
  quantified in the theorems.
-/

open Real

/-- RGB color triple, components as real numbers (main.js stores
`[r, g, b]`). -/
def Color : Type := ℝ × ℝ × ℝ

/-- The persistent shape variants of main.js: the `Point`, `Line`,
`Triangle` and `Circle` subclasses of `Shape`.  Each constructor carries
exactly the data the corresponding JS constructor stores: the vertex data,
the color, the size and the alpha (plus the segment count for circles).
Circles and points store only their center; the circle fan is generated at
render time by `Circle.render`. -/
inductive Shape where
  | point (x y : ℝ) (color : Color) (size alpha : ℝ)
  | line (x0 y0 x1 y1 : ℝ) (color : Color) (size alpha : ℝ)
  | triangle (vertices : List (ℝ × ℝ)) (color : Color) (size alpha : ℝ)
  | circle (x y : ℝ) (color : Color) (size : ℝ) (segments : ℕ) (alpha : ℝ)

/-- The vertex list built by `Circle.render` (main.js lines 85-100):
a center point followed by rim points for `i = 0 .. segments` inclusive,
rim point `i` at angle `i * 2 * π / segments` on the circle of radius
`size / 100` around the center. -/
noncomputable def circleFan (centerX centerY size : ℝ) (segments : ℕ) : List (ℝ × ℝ) :=
  (centerX, centerY) ::
    (List.range (segments + 1)).map (fun i : ℕ =>
      (centerX + size / 100 * Real.cos ((i : ℝ) * 2 * Real.pi / segments),
       centerY + size / 100 * Real.sin ((i : ℝ) * 2 * Real.pi / segments)))

/-- The equilateral-triangle vertices built by the `else` branch of the
triangle case of `addShape` (main.js lines 343-351). -/
noncomputable def equilateralTriangle (x y size : ℝ) : List (ℝ × ℝ) :=
  [(x, y + size / 100 * Real.sqrt 3 / 2 / 2),
   (x - size / 100 / 2, y - size / 100 * Real.sqrt 3 / 2 / 2),
   (x + size / 100 / 2, y - size / 100 * Real.sqrt 3 / 2 / 2)]

/-- The triangle vertices built by the triangle case of `addShape`
(main.js lines 322-354): when the drag vector `(dx, dy)` is nonzero the
triangle is oriented along it (tip at `(x, y)`, the two base corners offset
by `size/100` along minus the unit heading plus/minus its perpendicular);
for the degenerate drag vector `(0, 0)` the equilateral form is used. -/
noncomputable def orientedTriangle (x y dx dy size : ℝ) : List (ℝ × ℝ) :=
  if dx ≠ 0 ∨ dy ≠ 0 then
    [(x, y),
     (x - size / 100 * (dx / Real.sqrt (dx * dx + dy * dy))
        + size / 100 * (-(dy / Real.sqrt (dx * dx + dy * dy))),
      y - size / 100 * (dy / Real.sqrt (dx * dx + dy * dy))
        + size / 100 * (dx / Real.sqrt (dx * dx + dy * dy))),
     (x - size / 100 * (dx / Real.sqrt (dx * dx + dy * dy))
        - size / 100 * (-(dy / Real.sqrt (dx * dx + dy * dy))),
      y - size / 100 * (dy / Real.sqrt (dx * dx + dy * dy))
        - size / 100 * (dx / Real.sqrt (dx * dx + dy * dy)))]
  else
    equilateralTriangle x y size

/-- Model of `getRainbowColor` (main.js lines 374-380): each channel is
`sin(offset + phase) * 0.5 + 0.5` for phases 0, 2, 4. -/
noncomputable def getRainbowColor (rainbowOffset : ℝ) : Color :=
  (Real.sin rainbowOffset * 0.5 + 0.5,
   Real.sin (rainbowOffset + 2) * 0.5 + 0.5,
   Real.sin (rainbowOffset + 4) * 0.5 + 0.5)

/-- Model of `canvasToGLCoord` (main.js lines 236-246): subtract the canvas
bounding-rect origin, then map to normalized device coordinates with the
y axis flipped. -/
noncomputable def canvasToGLCoord (clientX clientY rectLeft rectTop width height : ℝ) :
    ℝ × ℝ :=
  ((clientX - rectLeft) / width * 2 - 1,
   -((clientY - rectTop) / height) * 2 + 1)

/-- The current shape type selected in the UI (`currentShapeType` in
main.js, one of the strings point, triangle and circle). -/
inductive Tool where
  | point
  | triangle
  | circle
deriving DecidableEq

/-- Model of `addShape` (main.js lines 317-360): push one shape, selected by the
current shape type, onto `shapesList`.  The triangle case is factored
through `orientedTriangle`, whose branch condition mirrors
`if (dx !== 0 || dy !== 0)`. -/
noncomputable def addShape (tool : Tool) (x y : ℝ) (color : Color)
    (size : ℝ) (segments : ℕ) (alpha : ℝ) (dx dy : ℝ)
    (shapesList : List Shape) : List Shape :=
  match tool with
  | .point => shapesList ++ [Shape.point x y color size alpha]
  | .triangle => shapesList ++ [Shape.triangle (orientedTriangle x y dx dy size) color size alpha]
  | .circle => shapesList ++ [Shape.circle x y color size segments alpha]

/-- Result of one pointer event in the translator model: the new
`shapesList`, the new `lastMousePos`, and whether `renderAllShapes` was
called during the event. -/
structure MoveResult where
  shapesList : List Shape
  lastMousePos : ℝ × ℝ
  rendered : Bool

/-- The kind-dependent minimum drag distance of `handleMouseEvent`
(main.js lines 277-283): default `0.005`, raised to `0.03` for triangles. -/
noncomputable def minDistanceFor (tool : Tool) : ℝ :=
  if tool = Tool.triangle then 0.03 else 0.005

/-- The move-while-down branch of `handleMouseEvent` (main.js lines
269-305): compute the drag vector from `lastMousePos`, and only when its
length exceeds the kind-dependent minimum distance append a connecting
`Line` (point mode), append the primary shape via `addShape`, update
`lastMousePos` and redraw; otherwise do nothing.  The color, size, segment
count and alpha are the values read from the sliders (with the rainbow
substitution already applied), passed in as parameters. -/
noncomputable def handleMouseMove (tool : Tool) (color : Color) (size : ℝ)
    (segments : ℕ) (alpha : ℝ) (currentPos : ℝ × ℝ)
    (shapesList : List Shape) (lastMousePos : ℝ × ℝ) : MoveResult :=
  let dx := currentPos.1 - lastMousePos.1
  let dy := currentPos.2 - lastMousePos.2
  let distance := Real.sqrt (dx * dx + dy * dy)
  if distance > minDistanceFor tool then
    let withLine :=
      if tool = Tool.point then
        shapesList ++
          [Shape.line lastMousePos.1 lastMousePos.2 currentPos.1 currentPos.2
            color (size / 10) alpha]
      else shapesList
    { shapesList := addShape tool currentPos.1 currentPos.2 color size segments alpha dx dy withLine,
      lastMousePos := currentPos,
      rendered := true }
  else
    { shapesList := shapesList, lastMousePos := lastMousePos, rendered := false }

/-- The single-click branch of `handleMouseEvent` (main.js lines 306-313):
add the shape at the event coordinate (with the default drag vector
`(0, 0)`), set `lastMousePos`, redraw. -/
noncomputable def handleMousePress (tool : Tool) (color : Color) (size : ℝ)
    (segments : ℕ) (alpha : ℝ) (coords : ℝ × ℝ)
    (shapesList : List Shape) : MoveResult :=
  { shapesList := addShape tool coords.1 coords.2 color size segments alpha 0 0 shapesList,
    lastMousePos := coords,
    rendered := true }

/-- Model of `drawSimpleTree` (main.js lines 634-658): push two trunk triangles and
three stacked foliage triangles at `(x, y)`. -/
noncomputable def drawSimpleTree (x y : ℝ) (trunkColor leavesColor : Color)
    (shapesList : List Shape) : List Shape :=
  shapesList ++
    [Shape.triangle [(x - 0.05, y), (x - 0.05, y + 0.2), (x + 0.05, y + 0.2)] trunkColor 10 1.0,
     Shape.triangle [(x - 0.05, y), (x + 0.05, y), (x + 0.05, y + 0.2)] trunkColor 10 1.0,
     Shape.triangle [(x, y + 0.5), (x - 0.15, y + 0.2), (x + 0.15, y + 0.2)] leavesColor 10 1.0,
     Shape.triangle [(x, y + 0.35), (x - 0.12, y + 0.15), (x + 0.12, y + 0.15)] leavesColor 10 1.0,
     Shape.triangle [(x, y + 0.25), (x - 0.1, y + 0.05), (x + 0.1, y + 0.05)] leavesColor 10 1.0]

/-- Model of `drawForestScene` (main.js lines 422-468): sky, ground, three trees,
two cloud circles, two bird triangles, pushed in source order. -/
noncomputable def drawForestScene (shapesList : List Shape) : List Shape :=
  drawSimpleTree 0.6 (-0.3) (0.6, 0.4, 0.2) (0.2, 0.8, 0.2)
    (drawSimpleTree (-0.6) (-0.3) (0.6, 0.4, 0.2) (0.2, 0.8, 0.2)
      (drawSimpleTree 0.0 (-0.3) (0.6, 0.4, 0.2) (0.2, 0.8, 0.2)
        (shapesList ++
          [Shape.triangle [(-1.0, 1.0), (1.0, 1.0), (-1.0, -0.3)] (0.6, 0.8, 1.0) 10 1.0,
           Shape.triangle [(1.0, 1.0), (1.0, -0.3), (-1.0, -0.3)] (0.6, 0.8, 1.0) 10 1.0,
           Shape.triangle [(-1.0, -0.3), (1.0, -0.3), (-1.0, -1.0)] (0.4, 0.8, 0.3) 10 1.0,
           Shape.triangle [(1.0, -1.0), (1.0, -0.3), (-1.0, -1.0)] (0.4, 0.8, 0.3) 10 1.0]))) ++
    [Shape.circle (-0.7) 0.7 (1.0, 1.0, 1.0) 25 16 0.8,
     Shape.circle (-0.5) 0.7 (1.0, 1.0, 1.0) 30 16 0.8,
     Shape.triangle [(-0.8, 0.4), (-0.7, 0.5), (-0.9, 0.5)] (0.3, 0.3, 0.3) 10 0.7,
     Shape.triangle [(-0.6, 0.4), (-0.7, 0.5), (-0.8, 0.4)] (0.3, 0.3, 0.3) 10 0.7]

/-- Model of `drawBeachScene` (main.js lines 474-538): sky, ocean, sand, sun, palm
trunk and leaves, pushed in source order. -/
noncomputable def drawBeachScene (shapesList : List Shape) : List Shape :=
  shapesList ++
    [Shape.triangle [(-1.0, 1.0), (1.0, 1.0), (-1.0, 0.0)] (0.6, 0.8, 1.0) 10 1.0,
     Shape.triangle [(1.0, 1.0), (1.0, 0.0), (-1.0, 0.0)] (0.6, 0.8, 1.0) 10 1.0,
     Shape.triangle [(-1.0, 0.0), (1.0, 0.0), (-1.0, -0.3)] (0.2, 0.4, 0.8) 10 1.0,
     Shape.triangle [(1.0, -0.3), (1.0, 0.0), (-1.0, -0.3)] (0.2, 0.4, 0.8) 10 1.0,
     Shape.triangle [(-1.0, -1.0), (1.0, -1.0), (-1.0, -0.3)] (0.94, 0.86, 0.67) 10 1.0,
     Shape.triangle [(1.0, -0.3), (1.0, -1.0), (-1.0, -0.3)] (0.94, 0.86, 0.67) 10 1.0,
     Shape.circle 0.8 0.8 (1.0, 0.9, 0.0) 30 24 1.0,
     Shape.triangle [(-0.6, -0.3), (-0.6, 0.0), (-0.5, 0.0)] (0.6, 0.4, 0.2) 10 1.0,
     Shape.triangle [(-0.6, -0.3), (-0.5, -0.3), (-0.5, 0.0)] (0.6, 0.4, 0.2) 10 1.0,
     Shape.triangle [(-0.55, 0.0), (-0.8, 0.2), (-0.3, 0.2)] (0.0, 0.6, 0.0) 10 0.9,
     Shape.triangle [(-0.55, 0.0), (-0.9, 0.1), (-0.7, 0.0)] (0.0, 0.6, 0.0) 10 0.9,
     Shape.triangle [(-0.55, 0.0), (-0.2, 0.1), (-0.4, 0.0)] (0.0, 0.6, 0.0) 10 0.9,
     Shape.triangle [(-0.55, 0.0), (-0.7, -0.1), (-0.4, -0.1)] (0.0, 0.6, 0.0) 10 0.9]

/-- Model of `drawMountainScene` (main.js lines 544-587): sky, two mountains,
ground, two snow caps, lake, pushed in source order. -/
noncomputable def drawMountainScene (shapesList : List Shape) : List Shape :=
  shapesList ++
    [Shape.triangle [(-1.0, 1.0), (1.0, 1.0), (-1.0, -0.5)] (0.6, 0.8, 1.0) 10 1.0,
     Shape.triangle [(1.0, 1.0), (1.0, -0.5), (-1.0, -0.5)] (0.6, 0.8, 1.0) 10 1.0,
     Shape.triangle [(-1.0, -0.5), (-0.4, 0.4), (0.2, -0.5)] (0.3, 0.3, 0.3) 10 1.0,
     Shape.triangle [(-0.2, -0.5), (0.5, 0.5), (1.0, -0.5)] (0.35, 0.35, 0.35) 10 1.0,
     Shape.triangle [(-1.0, -0.5), (1.0, -0.5), (-1.0, -1.0)] (0.4, 0.7, 0.4) 10 1.0,
     Shape.triangle [(1.0, -1.0), (1.0, -0.5), (-1.0, -1.0)] (0.4, 0.7, 0.4) 10 1.0,
     Shape.triangle [(-0.48, 0.25), (-0.4, 0.4), (-0.32, 0.25)] (1.0, 1.0, 1.0) 10 1.0,
     Shape.triangle [(0.42, 0.35), (0.5, 0.5), (0.58, 0.35)] (1.0, 1.0, 1.0) 10 1.0,
     Shape.circle 0.0 (-0.7) (0.1, 0.3, 0.8) 30 24 0.8]

/-- Model of `drawMoonlitScene` (main.js lines 593-628): dark sky, moon, four
stars, silhouette ground and four silhouette trees, pushed in source
order. -/
noncomputable def drawMoonlitScene (shapesList : List Shape) : List Shape :=
  drawSimpleTree 0.7 (-0.6) (0.1, 0.1, 0.1) (0.1, 0.15, 0.1)
    (drawSimpleTree (-0.2) (-0.6) (0.1, 0.1, 0.1) (0.1, 0.15, 0.1)
      (drawSimpleTree 0.3 (-0.6) (0.1, 0.1, 0.1) (0.1, 0.15, 0.1)
        (drawSimpleTree (-0.5) (-0.6) (0.1, 0.1, 0.1) (0.1, 0.15, 0.1)
          (shapesList ++
            [Shape.triangle [(-1.0, 1.0), (1.0, 1.0), (-1.0, -1.0)] (0.05, 0.05, 0.2) 10 1.0,
             Shape.triangle [(1.0, 1.0), (1.0, -1.0), (-1.0, -1.0)] (0.05, 0.05, 0.2) 10 1.0,
             Shape.circle 0.7 0.7 (1.0, 0.95, 0.8) 40 24 1.0,
             Shape.circle (-0.8) 0.9 (1.0, 1.0, 1.0) 5 12 1.0,
             Shape.circle (-0.2) 0.8 (1.0, 1.0, 1.0) 5 12 1.0,
             Shape.circle 0.2 0.9 (1.0, 1.0, 1.0) 5 12 1.0,
             Shape.circle 0.9 0.6 (1.0, 1.0, 1.0) 5 12 1.0,
             Shape.triangle [(-1.0, -0.6), (1.0, -0.6), (-1.0, -1.0)] (0.1, 0.1, 0.1) 10 1.0,
             Shape.triangle [(1.0, -1.0), (1.0, -0.6), (-1.0, -1.0)] (0.1, 0.1, 0.1) 10 1.0]))))

/-- Model of `drawPicture` (main.js lines 383-411): clear `shapesList`, build the
scene selected by the random choice (0 forest, 1 beach, 2 mountain,
3 moonlit), then call `renderAllShapes`.  The random scene choice is an
explicit parameter; the result is the new `shapesList` together with the
frame handed to the renderer. -/
noncomputable def drawPicture (sceneChoice : Fin 4) (shapesList : List Shape) :
    List Shape × List Shape :=
  let cleared : List Shape := []
  let scene :=
    match sceneChoice with
    | 0 => drawForestScene cleared
    | 1 => drawBeachScene cleared
    | 2 => drawMountainScene cleared
    | 3 => drawMoonlitScene cleared
  (scene, scene)

/-- A falling shape of the mini-game (the object literal pushed by
`spawnShape`, main.js lines 866-873): position, kind, color, size, fall
speed.  Coordinates are exact rationals (no trigonometry occurs in the
game logic). -/
structure FallingShape where
  x : ℚ
  y : ℚ
  isCircle : Bool
  colorR : ℚ
  colorG : ℚ
  colorB : ℚ
  size : ℚ
  speed : ℚ
deriving DecidableEq

/-- The basket rectangle of the mini-game (main.js lines 840-845):
center x (mouse-controlled), fixed y, width, height. -/
structure Basket where
  x : ℚ
  y : ℚ
  width : ℚ
  height : ℚ
deriving DecidableEq

/-- The catch test of the mini-game loop (main.js lines 927-930): the
y of the shape within the half-height band of the basket and its x within the
half-width band, all four comparisons inclusive. -/
def caughtByBasket (b : Basket) (s : FallingShape) : Prop :=
  s.y ≤ b.y + b.height / 2 ∧
  b.y - b.height / 2 ≤ s.y ∧
  b.x - b.width / 2 ≤ s.x ∧
  s.x ≤ b.x + b.width / 2

instance (b : Basket) (s : FallingShape) : Decidable (caughtByBasket b s) := by
  unfold caughtByBasket
  infer_instance

/-- Fall step of one shape, `shape.y -= shape.speed` (main.js line 908). -/
def fallStep (s : FallingShape) : FallingShape :=
  { s with y := s.y - s.speed }

/-- The falling-shape update of `gameLoop` (main.js lines 904-945): each
shape moves down by its speed; a shape caught by the basket adds 10 to the
score and is removed; a shape below y = -1.2 is removed; all other shapes
survive in order.  (The source iterates from the end of the array and
splices; since each element is inspected and removed independently, this
per-element recursion produces the same score total and survivor list.)
Returns the score gained this tick and the surviving list. -/
def updateFalling (b : Basket) : List FallingShape → ℕ × List FallingShape
  | [] => (0, [])
  | s :: rest =>
    let s2 := fallStep s
    let tail := updateFalling b rest
    if caughtByBasket b s2 then (tail.1 + 10, tail.2)
    else if s2.y < -1.2 then (tail.1, tail.2)
    else (tail.1, s2 :: tail.2)

/-- The randomness one `gameLoop` tick consumes (main.js lines 848-950):
the basket x set by any intervening mousemove, the `Math.random() < 0.05`
spawn decision, and the random draws used by `spawnShape` when it fires. -/
structure GameTick where
  basketX : ℚ
  spawn : Bool
  randX : ℚ
  randKindAboveHalf : Bool
  randR : ℚ
  randG : ℚ
  randB : ℚ
  randSize : ℚ
  randSpeed : ℚ

/-- Model of `spawnShape` (main.js lines 858-874): new shape at random x in
[-0.9, 0.9), y = 1.0, random kind/color/size/speed. -/
def spawnShape (t : GameTick) : FallingShape :=
  { x := t.randX * 1.8 - 0.9
    y := 1.0
    isCircle := t.randKindAboveHalf
    colorR := t.randR
    colorG := t.randG
    colorB := t.randB
    size := t.randSize * 15 + 5
    speed := t.randSpeed * 0.01 + 0.005 }

/-- The state of one mini-game session started from the `startGameBtn`
handler (main.js lines 800-984): the saved painting, the global
`shapesList`, score, remaining `gameTime`, the `gameActive` flag, the
falling shapes, the basket, and the argument of the last
`renderAllShapes()` call. -/
structure GameState where
  savedShapes : List Shape
  shapesList : List Shape
  score : ℕ
  gameTime : ℚ
  gameActive : Bool
  fallingShapes : List FallingShape
  basket : Basket
  renderedFrame : Option (List Shape)

/-- Session start (main.js lines 800-845): save `shapesList`, clear it,
redraw the cleared canvas, reset score/time/shape list, place the basket
at (0, -0.8) with width 0.2 and height 0.1. -/
def startGame (store : List Shape) : GameState :=
  { savedShapes := store
    shapesList := []
    score := 0
    gameTime := 30
    gameActive := true
    fallingShapes := []
    basket := { x := 0, y := -0.8, width := 0.2, height := 0.1 }
    renderedFrame := some []
    }

/-- Model of `endGame` (main.js lines 965-980): clear `gameActive`, restore the
saved `shapesList`, redraw it.  (Reporting the score and removing the game
UI and mousemove listener are DOM effects outside the model.) -/
def endGame (g : GameState) : GameState :=
  { g with
      gameActive := false
      shapesList := g.savedShapes
      renderedFrame := some g.savedShapes }

/-- One `gameLoop` tick (main.js lines 877-963) together with the basket
mousemove handling that may precede it (lines 848-855): a no-op when the
game is inactive; otherwise move the basket, update the falling shapes
against the basket (catches score 10 each), possibly spawn a new shape,
subtract 1/60 s from the remaining time, and end the game once the time is
spent. -/
def gameLoopStep (t : GameTick) (g : GameState) : GameState :=
  if g.gameActive = false then g
  else
    let basket2 := { g.basket with x := t.basketX }
    let upd := updateFalling basket2 g.fallingShapes
    let falling2 := if t.spawn then upd.2 ++ [spawnShape t] else upd.2
    let time2 := g.gameTime - 1 / 60
    let g2 := { g with
                  basket := basket2
                  score := g.score + upd.1
                  fallingShapes := falling2
                  gameTime := time2 }
    if time2 ≤ 0 then endGame g2 else g2

/-- A whole session: `startGame` followed by `n` ticks with the given
randomness stream. -/
def runGame (store : List Shape) (ticks : ℕ → GameTick) : ℕ → GameState
  | 0 => startGame store
  | n + 1 => gameLoopStep (ticks n) (runGame store ticks n)

/-- One particle of `ParticleSystem` (advanced_features.js lines 20-29):
position, velocity, size, RGBA color, lifetime counter and its original
maximum.  Reals, because the constructor uses `Math.cos`/`Math.sin`. -/
structure Particle where
  x : ℝ
  y : ℝ
  vx : ℝ
  vy : ℝ
  size : ℝ
  colorR : ℝ
  colorG : ℝ
  colorB : ℝ
  alpha : ℝ
  lifetime : ℝ
  maxLifetime : ℝ

/-- The four `Math.random()` draws used for one particle in the
`ParticleSystem` constructor (advanced_features.js lines 14-18). -/
structure ParticleRands where
  randAngle : ℝ
  randSpeed : ℝ
  randSize : ℝ
  randLifetime : ℝ

/-- One particle as built by the `ParticleSystem` constructor
(advanced_features.js lines 14-29): angle `rand * 2π`, speed
`rand * 0.01 + 0.005`, size `rand * 5 + 2`, lifetime `rand * 50 + 10`,
velocity `(cos angle, sin angle) * speed`, alpha 1.0,
`maxLifetime = lifetime`. -/
noncomputable def mkParticle (x y : ℝ) (color : Color) (r : ParticleRands) : Particle :=
  { x := x
    y := y
    vx := Real.cos (r.randAngle * Real.pi * 2) * (r.randSpeed * 0.01 + 0.005)
    vy := Real.sin (r.randAngle * Real.pi * 2) * (r.randSpeed * 0.01 + 0.005)
    size := r.randSize * 5 + 2
    colorR := color.1
    colorG := color.2.1
    colorB := color.2.2
    alpha := 1.0
    lifetime := r.randLifetime * 50 + 10
    maxLifetime := r.randLifetime * 50 + 10 }

/-- A `ParticleSystem` (advanced_features.js lines 7-31): its particles,
its own age counter, and the hard cap of 60 frames. -/
structure ParticleSystem where
  particles : List Particle
  lifetime : ℕ
  maxLifetime : ℕ

/-- The `ParticleSystem` constructor (advanced_features.js lines 8-31):
one particle per random draw, system age 0, cap 60. -/
noncomputable def mkParticleSystem (x y : ℝ) (color : Color)
    (rands : List ParticleRands) : ParticleSystem :=
  { particles := rands.map (mkParticle x y color)
    lifetime := 0
    maxLifetime := 60 }

/-- The per-particle body of `ParticleSystem.update` (advanced_features.js
lines 37-52): move by velocity, apply gravity to `vy`, decrement lifetime,
recompute alpha as `lifetime / maxLifetime`. -/
noncomputable def updateParticle (p : Particle) : Particle :=
  { p with
      x := p.x + p.vx
      y := p.y + p.vy
      vy := p.vy - 0.0002
      lifetime := p.lifetime - 1
      alpha := (p.lifetime - 1) / p.maxLifetime }

/-- Model of `ParticleSystem.update` (advanced_features.js lines 33-56): bump the
system age, update every particle, drop the particles whose lifetime is no
longer positive. -/
noncomputable def updateParticleSystem (ps : ParticleSystem) : ParticleSystem :=
  { ps with
      lifetime := ps.lifetime + 1
      particles := (ps.particles.map updateParticle).filter (fun p => 0 < p.lifetime) }

/-- Model of `AnimatedStroke` (advanced_features.js lines 74-90): the progress
counter, the duration, and the finished flag.  (The path, color and size
play no role in the update logic and are omitted from the state.) -/
structure AnimatedStroke where
  progress : ℕ
  duration : ℕ
  finished : Bool
deriving DecidableEq

/-- The `AnimatedStroke` constructor (advanced_features.js lines 75-82):
progress 0, not finished. -/
def mkAnimatedStroke (duration : ℕ) : AnimatedStroke :=
  { progress := 0, duration := duration, finished := false }

/-- Model of `AnimatedStroke.update` (advanced_features.js lines 84-90): increment
progress while it is below the duration, otherwise set the finished
flag. -/
def strokeUpdate (s : AnimatedStroke) : AnimatedStroke :=
  if s.progress < s.duration then { s with progress := s.progress + 1 }
  else { s with finished := true }

/-- C3: for every circle with segment count n ≥ 3, the triangle-fan vertex
list has exactly n + 2 vertices (one center followed by n + 1 rim points),
rim point i (vertex i + 1) lies at angle i·2π/n on the circle of radius
size/100 around the center, and the last rim point (vertex n + 1) equals
the first rim point (vertex 1), closing the fan. -/
theorem circleFan_closure (centerX centerY size : ℝ) (n : ℕ) (hn : 3 ≤ n) :
    (circleFan centerX centerY size n).length = n + 2 ∧
    (∀ i : ℕ, i ≤ n →
      (circleFan centerX centerY size n)[i + 1]? =
        some (centerX + size / 100 * Real.cos (i * 2 * Real.pi / n),
              centerY + size / 100 * Real.sin (i * 2 * Real.pi / n))) ∧
    (circleFan centerX centerY size n)[n + 1]? =
      (circleFan centerX centerY size n)[1]? := by
  have hn0 : (n : ℝ) ≠ 0 := by
    have : 0 < n := by omega
    exact_mod_cast this.ne'
  have hidx : ∀ i : ℕ, i ≤ n →
      (circleFan centerX centerY size n)[i + 1]? =
        some (centerX + size / 100 * Real.cos (i * 2 * Real.pi / n),
              centerY + size / 100 * Real.sin (i * 2 * Real.pi / n)) := by
    intro i hi
    have hi2 : i < n + 1 := by omega
    simp only [circleFan, List.getElem?_cons_succ, List.getElem?_map,
      List.getElem?_range hi2, Option.map_some']
  refine ⟨?_, hidx, ?_⟩
  · simp only [circleFan, List.length_cons, List.length_map, List.length_range]
  rw [hidx n le_rfl, hidx 0 (Nat.zero_le n)]
  have e1 : (n : ℝ) * 2 * Real.pi / n = 2 * Real.pi := by
    field_simp
    ring
  simp [e1, Real.cos_two_pi, Real.sin_two_pi]

/-- Witness for C3 at the smallest admissible segment count, n = 3. -/
theorem circleFan_closure_witness :
    3 ≤ 3 ∧
    ((circleFan 0 0 10 3).length = 3 + 2 ∧
     (∀ i : ℕ, i ≤ 3 →
       (circleFan 0 0 10 3)[i + 1]? =
         some (0 + 10 / 100 * Real.cos (i * 2 * Real.pi / 3),
               0 + 10 / 100 * Real.sin (i * 2 * Real.pi / 3))) ∧
     (circleFan 0 0 10 3)[3 + 1]? = (circleFan 0 0 10 3)[1]?) :=
  ⟨by norm_num, circleFan_closure 0 0 10 3 (by norm_num)⟩

/-- C8: constructing a triangle with the degenerate drag vector (0, 0)
yields exactly the vertices of the equilateral form at the same anchor and
size, for every x, y and size (the special case avoids the division by the
zero magnitude). -/
theorem orientedTriangle_degenerate (x y size : ℝ) :
    orientedTriangle x y 0 0 size = equilateralTriangle x y size := by
  simp [orientedTriangle]

/-- C10: for every rainbow phase offset, every channel of the generated
color lies in [0, 1]. -/
theorem getRainbowColor_in_range (rainbowOffset : ℝ) :
    0 ≤ (getRainbowColor rainbowOffset).1 ∧ (getRainbowColor rainbowOffset).1 ≤ 1 ∧
    0 ≤ (getRainbowColor rainbowOffset).2.1 ∧ (getRainbowColor rainbowOffset).2.1 ≤ 1 ∧
    0 ≤ (getRainbowColor rainbowOffset).2.2 ∧ (getRainbowColor rainbowOffset).2.2 ≤ 1 := by
  have h1 := Real.neg_one_le_sin rainbowOffset
  have h2 := Real.sin_le_one rainbowOffset
  have h3 := Real.neg_one_le_sin (rainbowOffset + 2)
  have h4 := Real.sin_le_one (rainbowOffset + 2)
  have h5 := Real.neg_one_le_sin (rainbowOffset + 4)
  have h6 := Real.sin_le_one (rainbowOffset + 4)
  simp only [getRainbowColor]
  refine ⟨by linarith, by linarith, by linarith, by linarith, by linarith, by linarith⟩

/-- After k ≤ duration updates the stroke has progress k and is not yet
finished. -/
theorem strokeIterate_of_le (d k : ℕ) (h : k ≤ d) :
    strokeUpdate^[k] (mkAnimatedStroke d) = ⟨k, d, false⟩ := by
  induction k with
  | zero => rfl
  | succ k ih =>
    rw [Function.iterate_succ_apply', ih (Nat.le_of_succ_le h)]
    unfold strokeUpdate
    rw [if_pos (Nat.lt_of_succ_le h)]

/-- After more than duration updates the stroke sits at progress = duration
with the finished flag set. -/
theorem strokeIterate_of_gt (d k : ℕ) (h : d < k) :
    strokeUpdate^[k] (mkAnimatedStroke d) = ⟨d, d, true⟩ := by
  induction k with
  | zero => omega
  | succ k ih =>
    rcases Nat.lt_or_ge d k with h1 | h1
    · rw [Function.iterate_succ_apply', ih h1]
      unfold strokeUpdate
      rw [if_neg (lt_irrefl d)]
    · have hdk : d = k := by omega
      subst hdk
      rw [Function.iterate_succ_apply', strokeIterate_of_le d d le_rfl]
      unfold strokeUpdate
      rw [if_neg (lt_irrefl d)]

/-- C4 counterexample: at the default duration 30, after exactly
k = 30 ≥ duration update calls the finished flag is still false (it is
only set on the following call), refuting the claim as stated. -/
theorem strokeFinished_counterexample :
    30 ≤ 30 ∧ (strokeUpdate^[30] (mkAnimatedStroke 30)).finished = false :=
  ⟨le_rfl, by rw [strokeIterate_of_le 30 30 le_rfl]⟩

/-- C4 (amended): progress never exceeds duration, and after any
k ≥ duration + 1 calls to update the finished flag is true (the flag is
set by the first update that finds progress already at the duration). -/
theorem strokeProgress_bounded (d k : ℕ) (hk : d + 1 ≤ k) :
    (∀ m : ℕ, (strokeUpdate^[m] (mkAnimatedStroke d)).progress ≤ d) ∧
    (strokeUpdate^[k] (mkAnimatedStroke d)).finished = true := by
  constructor
  · intro m
    rcases le_or_lt m d with hm | hm
    · rw [strokeIterate_of_le d m hm]
      exact hm
    · rw [strokeIterate_of_gt d m hm]
  · rw [strokeIterate_of_gt d k (by omega)]

/-- Witness for the amended C4 theorem at duration 1 and k = 2. -/
theorem strokeProgress_bounded_witness :
    1 + 1 ≤ 2 ∧
    ((∀ m : ℕ, (strokeUpdate^[m] (mkAnimatedStroke 1)).progress ≤ 1) ∧
     (strokeUpdate^[2] (mkAnimatedStroke 1)).finished = true) :=
  ⟨le_rfl, strokeProgress_bounded 1 2 le_rfl⟩

/-- C5: while the pointer is down, a move whose distance from
`lastMousePos` does not exceed the kind-dependent threshold (0.005 for
point and circle modes, 0.03 for triangle mode) is a no-op: no shape is
appended, `lastMousePos` is unchanged, and no redraw is triggered. -/
theorem belowThresholdMove_noop (tool : Tool) (color : Color) (size : ℝ)
    (segments : ℕ) (alpha : ℝ) (currentPos : ℝ × ℝ)
    (shapesList : List Shape) (lastMousePos : ℝ × ℝ)
    (h : Real.sqrt ((currentPos.1 - lastMousePos.1) * (currentPos.1 - lastMousePos.1) +
          (currentPos.2 - lastMousePos.2) * (currentPos.2 - lastMousePos.2)) ≤
        minDistanceFor tool) :
    minDistanceFor Tool.point = 0.005 ∧
    minDistanceFor Tool.circle = 0.005 ∧
    minDistanceFor Tool.triangle = 0.03 ∧
    handleMouseMove tool color size segments alpha currentPos shapesList lastMousePos =
      { shapesList := shapesList, lastMousePos := lastMousePos, rendered := false } := by
  refine ⟨by rw [minDistanceFor, if_neg (by decide)],
    by rw [minDistanceFor, if_neg (by decide)],
    by rw [minDistanceFor, if_pos rfl], ?_⟩
  simp only [handleMouseMove]
  rw [if_neg (not_lt.mpr h)]

/-- Witness for C5: a zero-length move in point mode changes nothing. -/
theorem belowThresholdMove_noop_witness :
    Real.sqrt ((0 - 0 : ℝ) * (0 - 0) + (0 - 0 : ℝ) * (0 - 0)) ≤
        minDistanceFor Tool.point ∧
    handleMouseMove Tool.point (1, 0, 0) 10 12 1 ((0 : ℝ), (0 : ℝ)) []
        ((0 : ℝ), (0 : ℝ)) =
      { shapesList := [], lastMousePos := ((0 : ℝ), (0 : ℝ)), rendered := false } :=
  have h : Real.sqrt ((0 - 0 : ℝ) * (0 - 0) + (0 - 0 : ℝ) * (0 - 0)) ≤
      minDistanceFor Tool.point := by
    rw [minDistanceFor, if_neg (by decide)]
    simp only [sub_self, mul_zero, add_zero, Real.sqrt_zero]
    norm_num
  ⟨h, (belowThresholdMove_noop Tool.point (1, 0, 0) 10 12 1 (0, 0) [] (0, 0) h).2.2.2⟩

/-- C6: pixel coordinates map to normalized device coordinates by
x' = (px/width)·2 - 1 and y' = -(py/height)·2 + 1 (y flipped), and a press
at pixel (250, 250) on a 500×500 canvas with tool point, color (1,0,0),
size 10, alpha 1 appends exactly one Point shape at normalized (0, 0) with
color (1,0,0) and alpha 1 to the Scene Store, then redraws. -/
theorem pixelToNDC_pointPress (px py w hgt : ℝ) (segments : ℕ) (prev : List Shape) :
    canvasToGLCoord px py 0 0 w hgt = (px / w * 2 - 1, -(py / hgt) * 2 + 1) ∧
    canvasToGLCoord 250 250 0 0 500 500 = (0, 0) ∧
    handleMousePress Tool.point (1, 0, 0) 10 segments 1
        (canvasToGLCoord 250 250 0 0 500 500) prev =
      { shapesList := prev ++ [Shape.point 0 0 (1, 0, 0) 10 1],
        lastMousePos := (0, 0), rendered := true } := by
  have hc : canvasToGLCoord 250 250 0 0 500 500 = ((0 : ℝ), (0 : ℝ)) := by
    unfold canvasToGLCoord
    norm_num
  refine ⟨by unfold canvasToGLCoord; norm_num, hc, ?_⟩
  rw [hc]
  rfl

/-- C9: generating the forest scene clears the Scene Store and appends the
scene shapes, so the first two shapes of the resulting store are the two
sky triangles with color (0.6, 0.8, 1.0) and alpha 1.0 in source order,
and the new store is handed to the renderer. -/
theorem drawPicture_forest (prev : List Shape) :
    (drawPicture 0 prev).1 = drawForestScene [] ∧
    (drawPicture 0 prev).1[0]? =
      some (Shape.triangle [(-1.0, 1.0), (1.0, 1.0), (-1.0, -0.3)] (0.6, 0.8, 1.0) 10 1.0) ∧
    (drawPicture 0 prev).1[1]? =
      some (Shape.triangle [(1.0, 1.0), (1.0, -0.3), (-1.0, -0.3)] (0.6, 0.8, 1.0) 10 1.0) ∧
    (drawPicture 0 prev).2 = (drawPicture 0 prev).1 := by
  refine ⟨rfl, ?_, ?_, rfl⟩ <;> rfl

/-- C2: a falling shape is caught exactly when, after its fall step, its y
lies within [basket.y - height/2, basket.y + height/2] and its x within
[basket.x - width/2, basket.x + width/2], all four boundary comparisons
inclusive; and on a catch the score gain of the tick grows by exactly 10 while
the shape is removed from the surviving falling-shape list. -/
theorem miniGameCatch_inclusive (b : Basket) (s : FallingShape)
    (rest : List FallingShape) :
    (caughtByBasket b (fallStep s) ↔
      (b.y - b.height / 2 ≤ s.y - s.speed ∧ s.y - s.speed ≤ b.y + b.height / 2 ∧
       b.x - b.width / 2 ≤ s.x ∧ s.x ≤ b.x + b.width / 2)) ∧
    (caughtByBasket b (fallStep s) →
      (updateFalling b (s :: rest)).1 = (updateFalling b rest).1 + 10 ∧
      (updateFalling b (s :: rest)).2 = (updateFalling b rest).2) := by
  constructor
  · unfold caughtByBasket fallStep
    constructor
    · rintro ⟨h1, h2, h3, h4⟩
      exact ⟨h2, h1, h3, h4⟩
    · rintro ⟨h1, h2, h3, h4⟩
      exact ⟨h2, h1, h3, h4⟩
  · intro hc
    simp only [updateFalling]
    rw [if_pos hc]
    exact ⟨rfl, rfl⟩

/-- Witness for C2: a shape sitting exactly on the left boundary of the basket
(x = basket.x - width/2 = -0.1) after its fall step is caught, scores 10,
and is removed. -/
theorem miniGameCatch_inclusive_witness :
    caughtByBasket ⟨0, -0.8, 0.2, 0.1⟩
        (fallStep ⟨-0.1, -0.7, true, 0, 0, 0, 10, 0.1⟩) ∧
    (updateFalling ⟨0, -0.8, 0.2, 0.1⟩ [⟨-0.1, -0.7, true, 0, 0, 0, 10, 0.1⟩]).1 =
      (updateFalling ⟨0, -0.8, 0.2, 0.1⟩ []).1 + 10 ∧
    (updateFalling ⟨0, -0.8, 0.2, 0.1⟩ [⟨-0.1, -0.7, true, 0, 0, 0, 10, 0.1⟩]).2 =
      (updateFalling ⟨0, -0.8, 0.2, 0.1⟩ []).2 :=
  have hc : caughtByBasket ⟨0, -0.8, 0.2, 0.1⟩
      (fallStep ⟨-0.1, -0.7, true, 0, 0, 0, 10, 0.1⟩) := by
    unfold caughtByBasket fallStep
    norm_num
  ⟨hc,
   (miniGameCatch_inclusive ⟨0, -0.8, 0.2, 0.1⟩ ⟨-0.1, -0.7, true, 0, 0, 0, 10, 0.1⟩ []).2 hc⟩

/-- Invariant carried by every live particle: alpha equals
lifetime / maxLifetime, the lifetime is positive (dead particles are
filtered out) and never above its original maximum. -/
def ParticleInv (p : Particle) : Prop :=
  p.alpha = p.lifetime / p.maxLifetime ∧ 0 < p.lifetime ∧ p.lifetime ≤ p.maxLifetime

/-- A freshly constructed particle satisfies the invariant (its alpha is
the literal 1.0 and its lifetime equals its maximum). -/
theorem particleInv_mk (x y : ℝ) (c : Color) (r : ParticleRands)
    (h : 0 ≤ r.randLifetime) : ParticleInv (mkParticle x y c r) := by
  unfold ParticleInv mkParticle
  simp only
  have hl : (0 : ℝ) < r.randLifetime * 50 + 10 := by nlinarith
  refine ⟨?_, hl, le_rfl⟩
  rw [div_self hl.ne']
  norm_num

/-- One particle update preserves the invariant for particles that survive
the lifetime filter. -/
theorem particleInv_update (p : Particle) (hp : ParticleInv p)
    (hpos : 0 < (updateParticle p).lifetime) : ParticleInv (updateParticle p) := by
  obtain ⟨ha, hl, hle⟩ := hp
  unfold updateParticle at hpos ⊢
  simp only at hpos ⊢
  exact ⟨rfl, hpos, by linarith⟩

/-- Every particle alive after any number of system updates satisfies the
invariant. -/
theorem particleInv_system (x y : ℝ) (c : Color) (rands : List ParticleRands)
    (hr : ∀ r ∈ rands, 0 ≤ r.randLifetime) (k : ℕ) :
    ∀ p ∈ (updateParticleSystem^[k] (mkParticleSystem x y c rands)).particles,
      ParticleInv p := by
  induction k with
  | zero =>
    intro p hp
    rw [Function.iterate_zero_apply] at hp
    unfold mkParticleSystem at hp
    simp only [List.mem_map] at hp
    obtain ⟨r, hrmem, rfl⟩ := hp
    exact particleInv_mk x y c r (hr r hrmem)
  | succ k ih =>
    intro p hp
    rw [Function.iterate_succ_apply'] at hp
    unfold updateParticleSystem at hp
    simp only [List.mem_filter, List.mem_map, decide_eq_true_eq] at hp
    obtain ⟨⟨q, hq, rfl⟩, hpos⟩ := hp
    exact particleInv_update q (ih q hq) hpos

/-- C7: for every particle of a particle system, at construction and
after every update call, alpha equals lifetime / maxLifetime, lies in
[0, 1], and does not increase across the next update. -/
theorem particleAlpha_invariant (x y : ℝ) (c : Color) (rands : List ParticleRands)
    (hr : ∀ r ∈ rands, 0 ≤ r.randLifetime) (k : ℕ) (p : Particle)
    (hp : p ∈ (updateParticleSystem^[k] (mkParticleSystem x y c rands)).particles) :
    p.alpha = p.lifetime / p.maxLifetime ∧
    0 ≤ p.alpha ∧ p.alpha ≤ 1 ∧
    (updateParticle p).alpha ≤ p.alpha := by
  obtain ⟨ha, hl, hle⟩ := particleInv_system x y c rands hr k p hp
  have hm : 0 < p.maxLifetime := lt_of_lt_of_le hl hle
  refine ⟨ha, ?_, ?_, ?_⟩
  · rw [ha]
    exact div_nonneg hl.le hm.le
  · rw [ha]
    exact (div_le_one hm).mpr hle
  · have hstep : (updateParticle p).alpha = (p.lifetime - 1) / p.maxLifetime := rfl
    rw [hstep, ha]
    exact (div_le_div_right hm).mpr (by linarith)

/-- Witness for C7: the single particle of a one-particle burst with all
random draws 0, inspected right after construction. -/
theorem particleAlpha_invariant_witness :
    (∀ r ∈ [ParticleRands.mk 0 0 0 0], 0 ≤ r.randLifetime) ∧
    ((mkParticle 0 0 (0, 0, 0) (ParticleRands.mk 0 0 0 0)).alpha =
       (mkParticle 0 0 (0, 0, 0) (ParticleRands.mk 0 0 0 0)).lifetime /
         (mkParticle 0 0 (0, 0, 0) (ParticleRands.mk 0 0 0 0)).maxLifetime ∧
     0 ≤ (mkParticle 0 0 (0, 0, 0) (ParticleRands.mk 0 0 0 0)).alpha ∧
     (mkParticle 0 0 (0, 0, 0) (ParticleRands.mk 0 0 0 0)).alpha ≤ 1 ∧
     (updateParticle (mkParticle 0 0 (0, 0, 0) (ParticleRands.mk 0 0 0 0))).alpha ≤
       (mkParticle 0 0 (0, 0, 0) (ParticleRands.mk 0 0 0 0)).alpha) :=
  have hr : ∀ r ∈ [ParticleRands.mk 0 0 0 0], 0 ≤ r.randLifetime := by
    intro r hmem
    rw [List.mem_singleton] at hmem
    subst hmem
    norm_num
  have hp : mkParticle 0 0 ((0 : ℝ), (0 : ℝ), (0 : ℝ)) (ParticleRands.mk 0 0 0 0) ∈
      (updateParticleSystem^[0]
        (mkParticleSystem 0 0 (0, 0, 0) [ParticleRands.mk 0 0 0 0])).particles := by
    rw [Function.iterate_zero_apply]
    unfold mkParticleSystem
    simp
  ⟨hr, particleAlpha_invariant 0 0 (0, 0, 0) [ParticleRands.mk 0 0 0 0] hr 0 _ hp⟩

/-- A tick of the mini-game loop is a no-op once the game is inactive
(`if (!gameActive) return;`). -/
theorem gameLoopStep_inactive (t : GameTick) (g : GameState)
    (h : g.gameActive = false) : gameLoopStep t g = g := by
  unfold gameLoopStep
  rw [h]
  simp

/-- A tick taken from an active state whose decremented timer is spent
ends the game: the active flag clears, the saved painting is written back
to `shapesList`, and the restored list is redrawn. -/
theorem gameLoopStep_active_end (t : GameTick) (g : GameState)
    (h : g.gameActive = true) (hend : g.gameTime - 1 / 60 ≤ 0) :
    (gameLoopStep t g).gameActive = false ∧
    (gameLoopStep t g).savedShapes = g.savedShapes ∧
    (gameLoopStep t g).shapesList = g.savedShapes ∧
    (gameLoopStep t g).renderedFrame = some g.savedShapes := by
  simp only [gameLoopStep, endGame, h]
  rw [if_neg (by simp : ¬(true = false)), if_pos hend]
  exact ⟨rfl, rfl, rfl, rfl⟩

/-- A tick taken from an active state with time remaining keeps the game
active, preserves the saved painting, and decrements the timer by 1/60. -/
theorem gameLoopStep_active_continue (t : GameTick) (g : GameState)
    (h : g.gameActive = true) (hend : ¬g.gameTime - 1 / 60 ≤ 0) :
    (gameLoopStep t g).gameActive = true ∧
    (gameLoopStep t g).savedShapes = g.savedShapes ∧
    (gameLoopStep t g).gameTime = g.gameTime - 1 / 60 := by
  simp only [gameLoopStep, h]
  rw [if_neg (by simp : ¬(true = false)), if_neg hend]
  exact ⟨rfl, rfl, rfl⟩

/-- Session invariant: the saved painting never changes; while the game is
active the timer reads 30 - k/60 and is still positive; once the game is
inactive the painting has been restored and redrawn. -/
theorem runGame_invariant (store : List Shape) (ticks : ℕ → GameTick) (k : ℕ) :
    (runGame store ticks k).savedShapes = store ∧
    ((runGame store ticks k).gameActive = true →
      (runGame store ticks k).gameTime = 30 - (k : ℚ) / 60 ∧
      0 < (runGame store ticks k).gameTime) ∧
    ((runGame store ticks k).gameActive = false →
      (runGame store ticks k).shapesList = store ∧
      (runGame store ticks k).renderedFrame = some store) := by
  induction k with
  | zero =>
    refine ⟨rfl, fun _ => ⟨?_, ?_⟩, fun h => ?_⟩
    · norm_num [runGame, startGame]
    · norm_num [runGame, startGame]
    · simp [runGame, startGame] at h
  | succ k ih =>
    obtain ⟨ihs, iha, ihi⟩ := ih
    have hstep : runGame store ticks (k + 1) =
        gameLoopStep (ticks k) (runGame store ticks k) := rfl
    cases hact : (runGame store ticks k).gameActive with
    | false =>
      rw [hstep, gameLoopStep_inactive _ _ hact]
      refine ⟨ihs, fun h => ?_, ihi⟩
      rw [hact] at h
      exact absurd h (by simp)
    | true =>
      obtain ⟨htime, hpos⟩ := iha hact
      by_cases hend : (runGame store ticks k).gameTime - 1 / 60 ≤ 0
      · obtain ⟨hA, hS, hL, hR⟩ := gameLoopStep_active_end (ticks k) _ hact hend
        rw [hstep]
        refine ⟨hS.trans ihs, fun h => ?_, fun _ => ⟨hL.trans ihs, by rw [hR, ihs]⟩⟩
        rw [hA] at h
        exact absurd h (by simp)
      · obtain ⟨hA, hS, hT⟩ := gameLoopStep_active_continue (ticks k) _ hact hend
        rw [hstep]
        refine ⟨hS.trans ihs, fun _ => ⟨?_, ?_⟩, fun h => ?_⟩
        · rw [hT, htime]
          push_cast
          ring
        · rw [hT]
          exact not_le.mp hend
        · rw [hA] at h
          exact absurd h (by simp)

/-- C1: for every pre-game painting and every stream of tick inputs,
whenever the session has ended the Scene Store holds exactly the ordered
shape sequence saved at session start and that restored list has been
redrawn; and after 1800 ticks (30 s of game time at 1/60 s per tick) the
session has ended with the store restored and redrawn. -/
theorem miniGameEnd_restoresStore (store : List Shape) (ticks : ℕ → GameTick) :
    (∀ k : ℕ, (runGame store ticks k).gameActive = false →
      (runGame store ticks k).shapesList = store ∧
      (runGame store ticks k).renderedFrame = some store) ∧
    (runGame store ticks 1800).gameActive = false ∧
    (runGame store ticks 1800).shapesList = store ∧
    (runGame store ticks 1800).renderedFrame = some store := by
  have hinv := runGame_invariant store ticks
  have hend : (runGame store ticks 1800).gameActive = false := by
    cases hact : (runGame store ticks 1800).gameActive with
    | false => rfl
    | true =>
      obtain ⟨htime, hpos⟩ := (hinv 1800).2.1 hact
      rw [htime] at hpos
      push_cast at hpos
      norm_num at hpos
  exact ⟨fun k h => (hinv k).2.2 h, hend,
    ((hinv 1800).2.2 hend).1, ((hinv 1800).2.2 hend).2⟩
